import Mathlib

/-!
Verification development for the VoteX backend (Node.js/TypeScript).

The definitions below are a shallow embedding of the repository's data model
and of the operations relevant to the frozen claims:

* the MySQL service layer (`src/services/mysqlService.ts`) becomes pure
  functions over an explicit `Db` state (lists of rows);
* the vote-casting controller (`castVote` in `src/app.ts`, the variant wired
  into the routes, which performs the off-chain double-vote check and the
  post-submission verification) becomes a function from request inputs, the
  database state and a ledger oracle to an outcome record that also carries
  the trace of ledger submissions and the CRITICAL log lines;
* the admin election-lifecycle handlers (`src/controllers/adminController.ts`)
  become functions from the loaded election and ledger-call results to an
  HTTP outcome plus the single `updateElection` field-update they issue;
* the voter challenge-response authentication handler
  (`src/controllers/authController.ts`) becomes a function over the voter
  table, with signature recovery abstracted as an oracle;
* the blockchain read helpers (`blockchainService.ts`) become functions of
  the wrapped contract-call result, so that the `catch` branches are explicit.

External collaborators (the ledger client, the JWT verifier, signature
recovery) appear as oracle parameters or, where their definition is not part
of the provided sources, as definitions modelled from the specification
(marked as such in their doc comments).
-/

namespace VoteX

/-! ## Data model (src/types/index.d.ts, trimmed to the fields the claims use) -/

/-- A row of the `voters` table. -/
structure Voter where
  id : Nat
  email : String
  name : String
  wallet_address : Option String
  auth_nonce : Option String
  is_eligible_on_chain : Bool
  registration_status : String
  deriving Repr, DecidableEq

/-- A row of the `elections` table.  `results` holds the tally record that
the code stores via `JSON.stringify`; serialization is modelled as the
record itself (an association list from ledger candidate id to count). -/
structure Election where
  id : Nat
  status : String
  results : Option (List (String × Nat))
  winning_candidate_id : Option Nat
  deriving Repr, DecidableEq

/-- A row of the `posts` table. -/
structure Post where
  id : Nat
  election_id : Nat
  deriving Repr, DecidableEq

/-- A row of the `candidates` table. -/
structure Candidate where
  id : Nat
  post_id : Nat
  election_id : Nat
  blockchain_candidate_id : Option String
  deriving Repr, DecidableEq

/-- A row of the `vote_logs` table. -/
structure VoteLog where
  election_id : Nat
  post_id : Nat
  candidate_id : Nat
  voter_wallet_address : String
  transaction_hash : String
  deriving Repr, DecidableEq

/-- A row of the `voter_receipts` table. -/
structure VoterReceipt where
  voter_wallet_address : String
  election_id : Nat
  post_id : Nat
  candidate_id : Nat
  transaction_hash : String
  blockchain_receipt_id : Option String
  deriving Repr, DecidableEq

/-- The relational store, as explicit state. -/
structure Db where
  voters : List Voter
  elections : List Election
  posts : List Post
  candidates : List Candidate
  vote_logs : List VoteLog
  voter_receipts : List VoterReceipt
  deriving Repr, DecidableEq

/-! ## mysqlService.ts embeds -/

/-- `getVoterByEmail`: `SELECT * FROM voters WHERE email = ?`, first row. -/
def getVoterByEmail (voters : List Voter) (email : String) : Option Voter :=
  voters.find? (fun v => v.email == email)

/-- `getVoterByWalletAddress`: the lookup lower-cases its argument before
querying (`walletAddress.toLowerCase()`), mysqlService.ts lines 113-121. -/
def getVoterByWalletAddress (voters : List Voter) (walletAddress : String) : Option Voter :=
  voters.find? (fun v => v.wallet_address == some walletAddress.toLower)

/-- `updateVoterStatusAndWallet` (mysqlService.ts lines 138-149): writes
`walletAddress.toLowerCase()`, the new registration status and the new
nonce (`null` clears it) on the row with the given id. -/
def updateVoterStatusAndWallet (voters : List Voter) (voterId : Nat)
    (walletAddress : String) (status : String) (authNonce : Option String) : List Voter :=
  voters.map (fun v =>
    if v.id == voterId then
      { v with wallet_address := some walletAddress.toLower,
               registration_status := status,
               auth_nonce := authNonce }
    else v)

/-- `updateVoterAuthNonce`: sets the nonce column on the row with the given
id (`null` clears it). -/
def updateVoterAuthNonce (voters : List Voter) (voterId : Nat)
    (nonce : Option String) : List Voter :=
  voters.map (fun v => if v.id == voterId then { v with auth_nonce := nonce } else v)

/-- `getElectionById`: `SELECT * FROM elections WHERE id = ?`, first row. -/
def getElectionById (db : Db) (id : Nat) : Option Election :=
  db.elections.find? (fun e => e.id == id)

/-- `getPostById`. -/
def getPostById (db : Db) (id : Nat) : Option Post :=
  db.posts.find? (fun p => p.id == id)

/-- `getCandidateById`. -/
def getCandidateById (db : Db) (id : Nat) : Option Candidate :=
  db.candidates.find? (fun c => c.id == id)

/-- `createVoteLog` (mysqlService.ts lines 316-330): appends a row, storing
`voter_wallet_address.toLowerCase()`. -/
def createVoteLog (logs : List VoteLog) (log : VoteLog) : List VoteLog :=
  logs ++ [{ log with voter_wallet_address := log.voter_wallet_address.toLower }]

/-- `createVoterReceipt` (mysqlService.ts lines 343-358): appends a row,
storing `voter_wallet_address.toLowerCase()`. -/
def createVoterReceipt (receipts : List VoterReceipt) (r : VoterReceipt) : List VoterReceipt :=
  receipts ++ [{ r with voter_wallet_address := r.voter_wallet_address.toLower }]

/-- `getVoterReceiptsByWalletAddress`: lower-cases its argument before
querying. -/
def getVoterReceiptsByWalletAddress (receipts : List VoterReceipt)
    (walletAddress : String) : List VoterReceipt :=
  receipts.filter (fun r => r.voter_wallet_address == walletAddress.toLower)

/-- Modelled from the spec: `mysqlService.hasVoterVotedForPostInDB` is called
by the vote controller (`src/app.ts` line 100) but its definition is not in
the provided sources.  Per the spec it checks "off-chain VoteLog for an
existing (electionId, postId, voterWalletAddress) entry". -/
def hasVoterVotedForPostInDB (db : Db) (electionId postId : Nat)
    (voterWalletAddress : String) : Bool :=
  db.vote_logs.any (fun l =>
    l.election_id == electionId && l.post_id == postId &&
    l.voter_wallet_address == voterWalletAddress)

/-! ## Vote Coordinator: castVote (src/app.ts, the routed controller) -/

/-- Ledger oracle for the cast-vote path.  `submitVote` models
`blockchainService.castVoteOnChain` (a falsy / absent transaction hash is
`none`); `verifyVote` models `blockchainService.verifyVoteTransaction`,
which already catches its own errors and returns a boolean. -/
structure Ledger where
  submitVote : Nat → Nat → String → String → Option String
  verifyVote : String → Nat → Nat → String → String → Bool

/-- The response of the castVote endpoint, one constructor per `res.status`
call site of `castVote` in src/app.ts. -/
inductive CastVoteResponse where
  /-- 400: missing election ID, post ID, candidate ID or wallet address. -/
  | badRequest
  /-- 400: election is not active or does not exist (one shared message). -/
  | notActive
  /-- 400: invalid post ID for this election. -/
  | invalidPost
  /-- 400: invalid candidate ID for this post. -/
  | invalidCandidate
  /-- 403: already voted for this post in this election. -/
  | alreadyVoted
  /-- 500: failed to record vote on blockchain (no transaction hash). -/
  | ledgerFailed
  /-- 200: success payload echoing the identifiers and the transaction hash. -/
  | success (electionId postId candidateId : Nat) (wallet txHash : String)
  deriving Repr, DecidableEq

/-- Outcome of one castVote request: the HTTP response, the database after
the request, the trace of ledger submit calls made, and the CRITICAL log
lines emitted. -/
structure CastVoteOutcome where
  response : CastVoteResponse
  db : Db
  ledgerSubmits : List (Nat × Nat × String × String)
  criticalLogs : List String
  deriving Repr, DecidableEq

/-- JavaScript truthiness for a request-body number: absent or `0` fails the
`if (!x)` presence check. -/
def truthyNat : Option Nat → Option Nat
  | some n => if n = 0 then none else some n
  | none => none

/-- JavaScript truthiness for a string: absent or empty fails `if (!x)`. -/
def truthyStr : Option String → Option String
  | some s => if s = "" then none else some s
  | none => none

/-- `castVote` (src/app.ts lines 65-163, the controller mounted on
`POST /api/voters/vote`): presence check, election must exist and be
`active`, post must belong to the election, candidate to the post, then the
off-chain double-vote check, the ledger submission, the post-submission
verification (failure only logged as CRITICAL), and the VoteLog /
VoterReceipt appends. -/
def castVote (electionId? postId? candidateId? : Option Nat) (wallet? : Option String)
    (db : Db) (L : Ledger) : CastVoteOutcome :=
  match truthyNat electionId?, truthyNat postId?, truthyNat candidateId?, truthyStr wallet? with
  | some electionId, some postId, some candidateId, some voterWalletAddress =>
    match getElectionById db electionId with
    | none => ⟨.notActive, db, [], []⟩
    | some election =>
      if election.status ≠ "active" then ⟨.notActive, db, [], []⟩
      else match getPostById db postId with
      | none => ⟨.invalidPost, db, [], []⟩
      | some post =>
        if post.election_id ≠ electionId then ⟨.invalidPost, db, [], []⟩
        else match getCandidateById db candidateId with
        | none => ⟨.invalidCandidate, db, [], []⟩
        | some candidate =>
          if candidate.post_id ≠ postId then ⟨.invalidCandidate, db, [], []⟩
          else if hasVoterVotedForPostInDB db electionId postId voterWalletAddress then
            ⟨.alreadyVoted, db, [], []⟩
          else
            let bcId := candidate.blockchain_candidate_id.getD ""
            match L.submitVote electionId postId bcId voterWalletAddress with
            | none =>
              ⟨.ledgerFailed, db, [(electionId, postId, bcId, voterWalletAddress)], []⟩
            | some transactionHash =>
              let crit :=
                if L.verifyVote transactionHash electionId postId bcId voterWalletAddress
                then []
                else ["CRITICAL: Blockchain transaction for vote did not verify correctly."]
              let db' := { db with
                vote_logs := createVoteLog db.vote_logs
                  ⟨electionId, postId, candidateId, voterWalletAddress, transactionHash⟩,
                voter_receipts := createVoterReceipt db.voter_receipts
                  ⟨voterWalletAddress, electionId, postId, candidateId, transactionHash, none⟩ }
              ⟨.success electionId postId candidateId voterWalletAddress transactionHash,
                db', [(electionId, postId, bcId, voterWalletAddress)], crit⟩
  | _, _, _, _ => ⟨.badRequest, db, [], []⟩

/-! ## Vote Coordinator: election lifecycle (src/controllers/adminController.ts) -/

/-- A single field-update successfully executed by
`mysqlService.updateElection` for an admin lifecycle handler.  A `none`
field is not part of the update (the handler did not include that key); an
included field always carries a defined value, because the database driver
rejects an undefined bind parameter (`pool.execute` throws on `undefined`
values, and `updateElection` builds its bind list from every key of the
updates object) — an update containing an undefined value is never
executed, it makes the handler throw into its catch branch instead. -/
structure ElectionUpdate where
  status : Option String := none
  results : Option (List (String × Nat)) := none
  winning_candidate_id : Option Nat := none
  deriving Repr, DecidableEq

/-- Outcome of an admin lifecycle handler: the HTTP status code of the
response and the one `updateElection` call it issued, if any. -/
structure AdminOutcome where
  httpStatus : Nat
  update : Option ElectionUpdate
  deriving Repr, DecidableEq

/-- Applying an executed `updateElection` field-update to an election row:
included fields are overwritten, absent fields are unchanged. -/
def applyUpdate (e : Election) (u : ElectionUpdate) : Election :=
  { e with status := u.status.getD e.status,
           results := match u.results with | some r => some r | none => e.results,
           winning_candidate_id :=
             match u.winning_candidate_id with
             | some w => some w
             | none => e.winning_candidate_id }

/-- `startElection` (adminController.ts lines 102-133): 404 when the
election is absent, 400 unless its status is `pending`, then the ledger
start call (`none` models a thrown/failed call, caught as a 500 with no
off-chain write), then `updateElection(id, { status: 'active' })`. -/
def startElection (election? : Option Election) (ledgerStartTx : Option String) : AdminOutcome :=
  match election? with
  | none => ⟨404, none⟩
  | some election =>
    if election.status ≠ "pending" then ⟨400, none⟩
    else match ledgerStartTx with
    | none => ⟨500, none⟩
    | some _ => ⟨200, some { status := some "active" }⟩

/-- The ledger candidate ids of an election's candidates:
`candidates.map(c => c.blockchain_candidate_id!).filter(Boolean)` — the
filter drops null/undefined and the empty string. -/
def blockchainCandidateIds (cs : List Candidate) : List String :=
  (cs.filterMap (fun c => c.blockchain_candidate_id)).filter (fun s => s ≠ "")

/-- Lookup in the tally record returned by `getFinalResultsFromChain`
(`finalBlockchainResults[bcId]`): `none` models an absent key (JavaScript
`undefined`). -/
def tallyLookup (r : List (String × Nat)) (bcId : String) : Option Nat :=
  (r.find? (fun p => p.1 == bcId)).map (fun p => p.2)

/-- The winner-selection loop of `endElection` (adminController.ts lines
167-176): `maxVotes` starts at `-1`; an id is selected only when its tally
is strictly greater than the running maximum, and a missing tally never
compares greater (JavaScript `undefined > x` is false). -/
def winnerLoop (r : List (String × Nat)) : List String → Option String → Int →
    Option String × Int
  | [], best, maxVotes => (best, maxVotes)
  | bcId :: rest, best, maxVotes =>
    match tallyLookup r bcId with
    | some v =>
      if (v : Int) > maxVotes then winnerLoop r rest (some bcId) (v : Int)
      else winnerLoop r rest best maxVotes
    | none => winnerLoop r rest best maxVotes

/-- `endElection` (adminController.ts lines 135-200): 404 when absent, 400
unless `active`, then the ledger end call (`none` models a throw, caught as
500 with no off-chain write), then the winner computation over the ledger
candidate ids and the single
`updateElection(id, { status: 'ended', results, winning_candidate_id })`.
When no winner is found, `winningCandidateId` stays `undefined`; the update
object still carries the `winning_candidate_id` key, so `updateElection`
passes an undefined bind parameter to the driver's `execute`, which throws
(mysql2 rejects undefined bind values) — the handler catches it and
responds 500, and nothing is persisted. -/
def endElection (election? : Option Election) (ledgerEndTx : Option String)
    (cs : List Candidate) (finalBlockchainResults : List (String × Nat)) : AdminOutcome :=
  match election? with
  | none => ⟨404, none⟩
  | some election =>
    if election.status ≠ "active" then ⟨400, none⟩
    else match ledgerEndTx with
    | none => ⟨500, none⟩
    | some _ =>
      let bcIds := blockchainCandidateIds cs
      let winnerBlockchainId := (winnerLoop finalBlockchainResults bcIds none (-1)).1
      let winningCandidateId :=
        winnerBlockchainId.bind (fun wb =>
          (cs.find? (fun c => c.blockchain_candidate_id == some wb)).map (fun c => c.id))
      match winningCandidateId with
      | none => ⟨500, none⟩
      | some wid =>
        ⟨200, some { status := some "ended",
                     results := some finalBlockchainResults,
                     winning_candidate_id := some wid }⟩

/-- `updateElectionStatus` (adminController.ts lines 66-100): 400 when the
status is absent or not one of pending/active/ended, 404 when the election
is absent; otherwise it writes the requested status unconditionally — there
is no precondition on the current status.  When the requested status is
`ended` it also adds the request-supplied results and winner to the update
object; if either is absent from the body the corresponding value is
undefined (`JSON.stringify(undefined)` is `undefined`), the driver's
`execute` throws on the undefined bind parameter, and the handler responds
500 with nothing persisted. -/
def updateElectionStatus (election? : Option Election) (status? : Option String)
    (resultsBody : Option (List (String × Nat))) (winningCandidateId : Option Nat) :
    AdminOutcome :=
  match truthyStr status? with
  | none => ⟨400, none⟩
  | some status =>
    if status ≠ "pending" ∧ status ≠ "active" ∧ status ≠ "ended" then ⟨400, none⟩
    else match election? with
    | none => ⟨404, none⟩
    | some _ =>
      if status = "ended" then
        match resultsBody, winningCandidateId with
        | some rs, some wid =>
          ⟨200, some { status := some status, results := some rs,
                       winning_candidate_id := some wid }⟩
        | _, _ => ⟨500, none⟩
      else ⟨200, some { status := some status }⟩

/-- Position of a status along the documented lifecycle
pending → active → ended. -/
def statusRank : String → Nat
  | "pending" => 0
  | "active" => 1
  | "ended" => 2
  | _ => 3

/-! ## Challenge-Response Authenticator (src/controllers/authController.ts) -/

/-- The fixed, human-readable stem of the challenge message
(`VOTER_AUTH_MESSAGE_PREFIX` in authController.ts). -/
def voterAuthMessageStem : String := "Authenticate to VoteX: "

/-- Response of the `voterAuthenticate` handler, one constructor per
`res.status` call site. -/
inductive AuthResponse where
  /-- 400: message, signature, wallet address and email are required. -/
  | badRequest
  /-- 404: voter profile not found. -/
  | notFound
  /-- 400: invalid or outdated authentication message. -/
  | invalidChallenge
  /-- 401: signature verification failed. -/
  | signatureMismatch
  /-- 200: token issued; the payload carries the lower-cased wallet. -/
  | success (walletLower : String)
  deriving Repr, DecidableEq

/-- Outcome of one `voterAuthenticate` request: the response and the voters
table after the request. -/
structure AuthOutcome where
  response : AuthResponse
  voters : List Voter
  deriving Repr, DecidableEq

/-- `voterAuthenticate` (authController.ts lines 84-141): presence check,
voter lookup by email, challenge check against the stored nonce
(`!expectedNonce || message !== prefix + nonce`), signature recovery and
case-insensitive address comparison, then either the wallet-linking update
(which also clears the nonce) or a plain nonce clear, and token issuance.
Signature recovery (`authService.verifyWalletSignature`, not among the
provided sources) is abstracted as the `recover` oracle; per the spec it
"cryptographically recovers the signing address from (message, signature)". -/
def voterAuthenticate (message signature walletAddress email : String)
    (recover : String → String → Option String) (voters : List Voter) : AuthOutcome :=
  if message = "" ∨ signature = "" ∨ walletAddress = "" ∨ email = "" then
    ⟨.badRequest, voters⟩
  else match getVoterByEmail voters email with
  | none => ⟨.notFound, voters⟩
  | some voter =>
    let nonceOk : Bool :=
      match voter.auth_nonce with
      | none => false
      | some n => n ≠ "" && message == voterAuthMessageStem ++ n
    if ¬ nonceOk then ⟨.invalidChallenge, voters⟩
    else match recover message signature with
    | none => ⟨.signatureMismatch, voters⟩
    | some recoveredAddress =>
      if recoveredAddress.toLower ≠ walletAddress.toLower then
        ⟨.signatureMismatch, voters⟩
      else
        let voters' :=
          if voter.wallet_address = none ∨
             voter.wallet_address.map String.toLower ≠ some walletAddress.toLower then
            updateVoterStatusAndWallet voters voter.id walletAddress "wallet_linked" none
          else
            updateVoterAuthNonce voters voter.id none
        ⟨.success walletAddress.toLower, voters'⟩

/-! ## Session/Token Issuer and request-authorization middleware -/

/-- Token payload decoded from a bearer token. -/
structure DecodedToken where
  id : Nat
  email : String
  role : String
  walletAddress : Option String
  deriving Repr, DecidableEq

/-- The possible outcomes of verifying one bearer token, failures split by
reason so that reason-independence can be stated. -/
inductive TokenCheck where
  | valid (payload : DecodedToken)
  | malformed
  | expired
  | badSignature
  deriving Repr, DecidableEq

/-- Modelled from the spec: `authService.verifyToken` is not among the
provided sources; per the spec the Session/Token Issuer's
`verify(token) -> payload | invalid` collapses every verification failure
(malformed, expired, bad signature) into the same invalid outcome. -/
def verifyToken : TokenCheck → Option DecodedToken
  | .valid p => some p
  | .malformed => none
  | .expired => none
  | .badSignature => none

/-- Result of an authorization middleware: an early error response or
proceeding with the decoded user. -/
inductive MwResult where
  /-- 401: authentication token required, `Bearer [token]` format. -/
  | tokenRequired
  /-- 403: invalid or expired token. -/
  | invalidToken
  /-- 403: role (or voter wallet) requirement not met. -/
  | accessDenied
  /-- Request proceeds with the decoded payload attached. -/
  | proceed (user : DecodedToken)
  deriving Repr, DecidableEq

/-- extracts the token from an `Authorization: Bearer x` header
(`authHeader.split(' ')[1]`). -/
def bearerToken (h : String) : String := ((h.splitOn " ").drop 1).headD ""

/-- `authenticateAdmin` middleware (src/routes/adminRoutes.ts lines 9-32):
401 without a `Bearer ` header, 403 when verification fails (one uniform
response, whatever the failure reason), 403 unless the role is `admin`. -/
def authenticateAdmin (authHeader : Option String) (check : String → TokenCheck) : MwResult :=
  match authHeader with
  | none => .tokenRequired
  | some h =>
    if ¬ h.startsWith "Bearer " then .tokenRequired
    else match verifyToken (check (bearerToken h)) with
    | none => .invalidToken
    | some decoded =>
      if decoded.role ≠ "admin" then .accessDenied else .proceed decoded

/-- `authenticateVoter` middleware (voter routes / authController.ts lines
149-174): same shape as the admin middleware, but requires role `voter` and
a wallet address in the payload. -/
def authenticateVoter (authHeader : Option String) (check : String → TokenCheck) : MwResult :=
  match authHeader with
  | none => .tokenRequired
  | some h =>
    if ¬ h.startsWith "Bearer " then .tokenRequired
    else match verifyToken (check (bearerToken h)) with
    | none => .invalidToken
    | some decoded =>
      if decoded.role ≠ "voter" ∨ (decoded.walletAddress.getD "") = "" then .accessDenied
      else .proceed decoded

/-! ## Ledger read helpers (blockchainService, src/unnamed/part_005) -/

/-- Result of one wrapped contract call: either a value or a thrown error. -/
inductive LedgerRead (α : Type) where
  | ok (value : α)
  | err (msg : String)
  deriving Repr, DecidableEq

/-- `hasVotedForPost` (part_005 lines 387-402): returns the contract's
answer, and `false` from the catch branch when the call throws. -/
def hasVotedForPost (call : LedgerRead Bool) : Bool :=
  match call with
  | .ok b => b
  | .err _ => false

/-- `isVoterGloballyWhitelisted` (part_005 lines 192-205): returns the
contract's answer, and `false` from the catch branch when the call throws. -/
def isVoterGloballyWhitelisted (call : LedgerRead Bool) : Bool :=
  match call with
  | .ok b => b
  | .err _ => false

/-- The per-post loop inside `checkVoterHasVotedForElection`: stops with
`true` at the first post voted for; a throw anywhere lands in the
function's catch branch, which returns `false`. -/
def checkVotedLoop (perPost : Nat → LedgerRead Bool) : List Nat → Bool
  | [] => false
  | p :: rest =>
    match perPost p with
    | .err _ => false
    | .ok true => true
    | .ok false => checkVotedLoop perPost rest

/-- `checkVoterHasVotedForElection` (part_005 lines 411-432): reads the
election's post ids, then queries `hasVotedForPost` for each; any throw —
in the details read or in any per-post read — is caught and yields
`false`. -/
def checkVoterHasVotedForElection (details : LedgerRead (List Nat))
    (perPost : Nat → LedgerRead Bool) : Bool :=
  match details with
  | .err _ => false
  | .ok postIds => checkVotedLoop perPost postIds

/-! ## Spec-side winner selection, and the loop characterization -/

/-- The maximum tally among the ids that have an entry in the tally record
(`none` when no id has one). -/
def maxTally? (r : List (String × Nat)) : List String → Option Nat
  | [] => none
  | i :: rest =>
    match tallyLookup r i, maxTally? r rest with
    | some v, some m => some (Max.max v m)
    | some v, none => some v
    | none, m => m

/-- Winner selection as worded by the spec: "the candidate with the strict
maximum tally (ties: first-seen order)" — the first id, in iteration order,
whose tally equals the maximum tally. -/
def specWinner (r : List (String × Nat)) (ids : List String) : Option String :=
  match maxTally? r ids with
  | none => none
  | some m => ids.find? (fun i => tallyLookup r i == some m)

/-- The stored-wallet-addresses-are-lower-case invariant over the three
tables that store wallet addresses. -/
def WalletsLowerCased (db : Db) : Prop :=
  (∀ v ∈ db.voters, ∀ w, v.wallet_address = some w → w.toLower = w) ∧
  (∀ l ∈ db.vote_logs, l.voter_wallet_address.toLower = l.voter_wallet_address) ∧
  (∀ rc ∈ db.voter_receipts, rc.voter_wallet_address.toLower = rc.voter_wallet_address)

/-- `maxTally?` is `none` exactly when no id has a tally entry. -/
theorem maxTally?_none_iff (r : List (String × Nat)) (ids : List String) :
    maxTally? r ids = none ↔ ∀ i ∈ ids, tallyLookup r i = none := by
  induction ids with
  | nil => simp [maxTally?]
  | cons i rest ih =>
    cases h : tallyLookup r i with
    | some v =>
      cases hr : maxTally? r rest <;> simp [maxTally?, h, hr]
    | none =>
      cases hr : maxTally? r rest <;> simp_all [maxTally?, h, hr]

theorem winnerLoop_spec (r : List (String × Nat)) :
    ∀ (ids : List String) (best : Option String) (mv : Int),
      winnerLoop r ids best mv =
        match maxTally? r ids with
        | none => (best, mv)
        | some m =>
          if mv < (m : Int) then
            (ids.find? (fun i => tallyLookup r i == some m), (m : Int))
          else (best, mv)
  | [], best, mv => rfl
  | i :: rest, best, mv => by
    have ih := winnerLoop_spec r rest
    cases h : tallyLookup r i with
    | none =>
      have hfind : ∀ m : Nat,
          (i :: rest).find? (fun j => tallyLookup r j == some m) =
          rest.find? (fun j => tallyLookup r j == some m) := by
        intro m; simp [List.find?_cons, h]
      have hmt : maxTally? r (i :: rest) = maxTally? r rest := by
        cases hr : maxTally? r rest <;> simp [maxTally?, h, hr]
      simp only [winnerLoop, h, ih, hmt]
      cases hrest : maxTally? r rest with
      | none => rfl
      | some m => simp [hfind]
    | some v =>
      simp only [winnerLoop, h]
      cases hrest : maxTally? r rest with
      | none =>
        have hrnone : ∀ j ∈ rest, tallyLookup r j = none :=
          (maxTally?_none_iff r rest).mp hrest
        have hfind : (i :: rest).find? (fun j => tallyLookup r j == some v) = some i := by
          simp [List.find?_cons, h]
        have hmt : maxTally? r (i :: rest) = some v := by simp [maxTally?, h, hrest]
        simp only [hmt]
        by_cases hvm : mv < (v : Int)
        · simp [hvm, ih, hrest, hfind]
        · simp [hvm, ih, hrest]
      | some m' =>
        by_cases hvm : mv < (v : Int)
        · by_cases hvm' : v < m'
          · have hmax : maxTally? r (i :: rest) = some m' := by
              simp [maxTally?, h, hrest, Nat.max_eq_right (Nat.le_of_lt hvm')]
            have hne : ¬ ((some v : Option Nat) == some m') = true := by
              simp [Nat.ne_of_lt hvm']
            have hfind : (i :: rest).find? (fun j => tallyLookup r j == some m') =
                rest.find? (fun j => tallyLookup r j == some m') := by
              simp [List.find?_cons, h, Nat.ne_of_lt hvm']
            have h1 : mv < (m' : Int) := by
              have : (v : Int) < (m' : Int) := by exact_mod_cast hvm'
              omega
            have h2 : (v : Int) < (m' : Int) := by exact_mod_cast hvm'
            simp [hmax, hvm, ih, hrest, hfind, h1, h2]
          · have hle : m' ≤ v := Nat.le_of_not_lt hvm'
            have hmax : maxTally? r (i :: rest) = some v := by
              simp [maxTally?, h, hrest, Nat.max_eq_left hle]
            have hfind : (i :: rest).find? (fun j => tallyLookup r j == some v) = some i := by
              simp [List.find?_cons, h]
            have h2 : ¬ ((v : Int) < (m' : Int)) := by
              have : (m' : Int) ≤ (v : Int) := by exact_mod_cast hle
              omega
            simp [hmax, hvm, ih, hrest, hfind, h2]
        · have hvle : (v : Int) ≤ mv := by omega
          by_cases hm' : mv < (m' : Int)
          · have hvm' : v < m' := by
              have : (v : Int) < (m' : Int) := by omega
              exact_mod_cast this
            have hmax : maxTally? r (i :: rest) = some m' := by
              simp [maxTally?, h, hrest, Nat.max_eq_right (Nat.le_of_lt hvm')]
            have hfind : (i :: rest).find? (fun j => tallyLookup r j == some m') =
                rest.find? (fun j => tallyLookup r j == some m') := by
              simp [List.find?_cons, h, Nat.ne_of_lt hvm']
            simp [hmax, hvm, ih, hrest, hfind, hm']
          · have hmax : ¬ (mv < ((Max.max v m' : Nat) : Int)) := by
              rcases Nat.le_total v m' with hh | hh
              · rw [Nat.max_eq_right hh]; omega
              · have : (m' : Int) ≤ (v : Int) := by exact_mod_cast hh
                rw [Nat.max_eq_left hh]; omega
            have hmt : maxTally? r (i :: rest) = some (Max.max v m') := by
              simp [maxTally?, h, hrest]
            simp [hmt, hvm, ih, hrest, hm', hmax]

/-- The winner computed by the `endElection` loop is exactly the spec's
first-seen strict-maximum winner. -/
theorem winnerLoop_eq_specWinner (r : List (String × Nat)) (ids : List String) :
    (winnerLoop r ids none (-1)).1 = specWinner r ids := by
  rw [winnerLoop_spec]
  cases h : maxTally? r ids with
  | none => simp [specWinner, h]
  | some m =>
    have : (-1 : Int) < (m : Int) := by omega
    simp [specWinner, h, this]

/-- When no id has a tally entry, there is no maximum tally. -/
theorem maxTally?_eq_none (r : List (String × Nat)) (ids : List String)
    (h : ∀ i ∈ ids, tallyLookup r i = none) : maxTally? r ids = none := by
  induction ids with
  | nil => rfl
  | cons i rest ih =>
    have hi := h i (List.mem_cons_self i rest)
    have hr := ih (fun j hj => h j (List.mem_cons_of_mem i hj))
    simp [maxTally?, hi, hr]

/-- What `endElection` does on an active election once the ledger end call
succeeded and the winner computation produced a candidate id (so every bind
parameter of the off-chain update is defined): one 200 response and one
combined field-update. -/
theorem endElection_active_eq (el : Election) (tx : String) (cs : List Candidate)
    (r : List (String × Nat)) (wid : Nat) (h : el.status = "active")
    (hw : (specWinner r (blockchainCandidateIds cs)).bind (fun wb =>
        (cs.find? (fun c => c.blockchain_candidate_id == some wb)).map
          (fun c => c.id)) = some wid) :
    endElection (some el) (some tx) cs r =
      ⟨200, some { status := some "ended", results := some r,
                   winning_candidate_id := some wid }⟩ := by
  simp only [endElection, h]
  rw [if_neg (by simp), winnerLoop_eq_specWinner, hw]

/-- The winner computation yields `none` when no ledger candidate id has a
tally entry, so the update's winner bind parameter is undefined there. -/
theorem endElection_winner_none (cs : List Candidate) (r : List (String × Nat))
    (hnone : ∀ i ∈ blockchainCandidateIds cs, tallyLookup r i = none) :
    (specWinner r (blockchainCandidateIds cs)).bind (fun wb =>
        (cs.find? (fun c => c.blockchain_candidate_id == some wb)).map
          (fun c => c.id)) = none := by
  have : specWinner r (blockchainCandidateIds cs) = none := by
    simp [specWinner, maxTally?_eq_none r _ hnone]
  rw [this]
  rfl

/-- C6: for every endElection call on an active election whose winner
computation finds a candidate, the winner is the candidate whose ledger id
attains the strict maximum tally over the election's ledger candidate ids,
ties resolved in favor of the first-seen id in iteration order
(`specWinner` is literally "the first id whose tally equals the maximum
tally"), and the ended status, tally map and winning_candidate_id are
persisted together as one field-update. -/
theorem claim_C6_endElection_winner (el : Election) (tx : String) (cs : List Candidate)
    (r : List (String × Nat)) (wid : Nat) (h : el.status = "active")
    (hw : (specWinner r (blockchainCandidateIds cs)).bind (fun wb =>
        (cs.find? (fun c => c.blockchain_candidate_id == some wb)).map
          (fun c => c.id)) = some wid) :
    endElection (some el) (some tx) cs r =
      ⟨200, some { status := some "ended", results := some r,
                   winning_candidate_id := some wid }⟩ :=
  endElection_active_eq el tx cs r wid h hw

/-- Witness for C6, at the spec's own example: tallies {A: 150, B: 100} make
candidate A (database id 10) the winner. -/
theorem claim_C6_witness :
    (({ id := 1, status := "active", results := none, winning_candidate_id := none } :
        Election).status = "active") ∧
    endElection (some { id := 1, status := "active", results := none,
                        winning_candidate_id := none }) (some "0xend")
        [{ id := 10, post_id := 1, election_id := 1, blockchain_candidate_id := some "A" },
         { id := 11, post_id := 1, election_id := 1, blockchain_candidate_id := some "B" }]
        [("A", 150), ("B", 100)] =
      ⟨200, some { status := some "ended", results := some [("A", 150), ("B", 100)],
                   winning_candidate_id := some 10 }⟩ :=
  ⟨rfl, claim_C6_endElection_winner _ "0xend" _ _ 10 rfl (by decide)⟩

/-- C10 counterexample: ending an active election with an empty candidate
list does not succeed — the winner computation stays undefined, the
off-chain update throws on the undefined bind parameter, and endElection
responds 500 with nothing persisted, contrary to the claimed 200 with a
persisted ended status. -/
theorem claim_C10_counterexample :
    endElection (some ⟨2, "active", none, none⟩) (some "0xend") [] [] = ⟨500, none⟩ ∧
    (endElection (some ⟨2, "active", none, none⟩) (some "0xend") [] []).httpStatus ≠ 200 ∧
    (endElection (some ⟨2, "active", none, none⟩) (some "0xend") [] []).update = none := by
  decide

/-- C10, amended: ending an active election whose candidate list yields no
ledger candidate id with a tally entry (in particular an empty candidate
list) fails rather than succeeding: the winner stays undefined, the
off-chain update is rejected by the driver (undefined bind parameter), and
the handler responds 500 with no off-chain write — even though the ledger
end call was already submitted. -/
theorem claim_C10_endElection_no_winner (el : Election) (tx : String)
    (cs : List Candidate) (r : List (String × Nat)) (h : el.status = "active")
    (hnone : ∀ i ∈ blockchainCandidateIds cs, tallyLookup r i = none) :
    endElection (some el) (some tx) cs r = ⟨500, none⟩ := by
  simp only [endElection, h]
  rw [if_neg (by simp), winnerLoop_eq_specWinner, endElection_winner_none cs r hnone]

/-- Witness for the amended C10: an active election with no candidates ends
in the 500 response with nothing persisted. -/
theorem claim_C10_witness :
    (({ id := 2, status := "active", results := none, winning_candidate_id := none } :
        Election).status = "active") ∧
    (∀ i ∈ blockchainCandidateIds [], tallyLookup [] i = none) ∧
    endElection (some ⟨2, "active", none, none⟩) (some "0xend") [] [] = ⟨500, none⟩ :=
  ⟨rfl, by simp [blockchainCandidateIds],
    claim_C10_endElection_no_winner _ "0xend" [] [] rfl (by simp [blockchainCandidateIds])⟩

/-- C2 counterexample: the election status can regress.  An election is
driven pending → active → ended through `startElection` and `endElection`
(so `ended` is reachable), and then `updateElectionStatus` with requested
status `pending` succeeds on the ended election and moves the status
backwards — `updateElectionStatus` has no precondition on the current
status. -/
theorem claim_C2_counterexample :
    startElection (some { id := 1, status := "pending", results := none,
                          winning_candidate_id := none }) (some "0xstart") =
      ⟨200, some { status := some "active" }⟩ ∧
    applyUpdate { id := 1, status := "pending", results := none, winning_candidate_id := none }
        { status := some "active" } =
      { id := 1, status := "active", results := none, winning_candidate_id := none } ∧
    endElection (some ⟨1, "active", none, none⟩) (some "0xend")
        [{ id := 10, post_id := 2, election_id := 1, blockchain_candidate_id := some "A" }]
        [("A", 1)] =
      ⟨200, some { status := some "ended", results := some [("A", 1)],
                   winning_candidate_id := some 10 }⟩ ∧
    applyUpdate { id := 1, status := "active", results := none, winning_candidate_id := none }
        { status := some "ended", results := some [("A", 1)],
          winning_candidate_id := some 10 } =
      { id := 1, status := "ended", results := some [("A", 1)],
        winning_candidate_id := some 10 } ∧
    updateElectionStatus
        (some { id := 1, status := "ended", results := some [("A", 1)],
                winning_candidate_id := some 10 })
        (some "pending") none none =
      ⟨200, some { status := some "pending" }⟩ ∧
    statusRank (applyUpdate
        { id := 1, status := "ended", results := some [("A", 1)],
          winning_candidate_id := some 10 }
        { status := some "pending" }).status <
      statusRank "ended" := by
  decide

/-- C2, amended: the two lifecycle actions `startElection` and `endElection`
only ever move the status forward along pending → active → ended; the
generic `updateElectionStatus` endpoint, however, writes any requested
status without checking the current one, so the status can regress through
it. -/
theorem claim_C2_amended (el : Election) (tx? : Option String) (cs : List Candidate)
    (r : List (String × Nat)) (u : ElectionUpdate)
    (h : (startElection (some el) tx?).update = some u ∨
         (endElection (some el) tx? cs r).update = some u) :
    statusRank el.status < statusRank ((applyUpdate el u).status) := by
  rcases h with h | h
  · simp only [startElection] at h
    by_cases hs : el.status ≠ "pending"
    · rw [if_pos hs] at h
      simp at h
    · rw [if_neg hs] at h
      push_neg at hs
      cases tx? with
      | none => simp at h
      | some tx =>
        simp only [AdminOutcome.update, Option.some.injEq] at h
        rw [hs, ← h]
        simp [applyUpdate]
        decide
  · simp only [endElection] at h
    by_cases hs : el.status ≠ "active"
    · rw [if_pos hs] at h
      simp at h
    · rw [if_neg hs] at h
      push_neg at hs
      cases tx? with
      | none => simp at h
      | some tx =>
        split at h
        · simp at h
        · split at h
          · simp at h
          · simp only [AdminOutcome.update, Option.some.injEq] at h
            rw [hs, ← h]
            simp [applyUpdate]
            decide

/-- Witness for the amended C2, at a concrete pending election being
started. -/
theorem claim_C2_amended_witness :
    ((startElection (some ⟨3, "pending", none, none⟩) (some "0x1")).update =
      some { status := some ("active" : String) } ∨
     (endElection (some ⟨3, "pending", none, none⟩) (some "0x1") [] []).update =
      some { status := some ("active" : String) }) ∧
    statusRank (Election.mk 3 "pending" none none).status <
      statusRank ((applyUpdate ⟨3, "pending", none, none⟩
        { status := some "active" }).status) :=
  ⟨Or.inl (by decide),
    claim_C2_amended _ (some "0x1") [] [] _ (Or.inl (by decide))⟩

/-- `castVote` only touches the vote_logs / voter_receipts tables, so the
election lookup is unchanged afterwards. -/
theorem getElectionById_set_logs (db : Db) (l : List VoteLog) (rc : List VoterReceipt) :
    getElectionById { db with vote_logs := l, voter_receipts := rc } = getElectionById db :=
  rfl

theorem getPostById_set_logs (db : Db) (l : List VoteLog) (rc : List VoterReceipt) :
    getPostById { db with vote_logs := l, voter_receipts := rc } = getPostById db :=
  rfl

theorem getCandidateById_set_logs (db : Db) (l : List VoteLog) (rc : List VoterReceipt) :
    getCandidateById { db with vote_logs := l, voter_receipts := rc } = getCandidateById db :=
  rfl

theorem hasVoterVotedForPostInDB_set_logs (db : Db) (l : List VoteLog)
    (rc : List VoterReceipt) (e p : Nat) (w : String) :
    hasVoterVotedForPostInDB { db with vote_logs := l, voter_receipts := rc } e p w =
      l.any (fun x => x.election_id == e && x.post_id == p && x.voter_wallet_address == w) :=
  rfl

/-- C5: casting a vote in an election whose status is `pending` or `ended`
fails with the invalid-state response, the database is untouched, and no
ledger submit call is made. -/
theorem claim_C5_castVote_not_active (db : Db) (L : Ledger) (e p c : Nat) (w : String)
    (el : Election) (he : e ≠ 0) (hp : p ≠ 0) (hc : c ≠ 0) (hw : w ≠ "")
    (hel : getElectionById db e = some el)
    (hst : el.status = "pending" ∨ el.status = "ended") :
    castVote (some e) (some p) (some c) (some w) db L =
      ⟨.notActive, db, [], []⟩ := by
  have hne : el.status ≠ "active" := by
    rcases hst with h | h <;> rw [h] <;> decide
  simp [castVote, truthyNat, truthyStr, he, hp, hc, hw, hel, hne]

/-- Witness for C5: a vote against a pending election is rejected without a
ledger call. -/
theorem claim_C5_witness :
    (1 : Nat) ≠ 0 ∧ (2 : Nat) ≠ 0 ∧ (3 : Nat) ≠ 0 ∧ ("0xabc" : String) ≠ "" ∧
    getElectionById ⟨[], [⟨1, "pending", none, none⟩], [], [], [], []⟩ 1 =
      some ⟨1, "pending", none, none⟩ ∧
    (("pending" : String) = "pending" ∨ ("pending" : String) = "ended") ∧
    castVote (some 1) (some 2) (some 3) (some "0xabc")
        ⟨[], [⟨1, "pending", none, none⟩], [], [], [], []⟩
        ⟨fun _ _ _ _ => some "0xtx", fun _ _ _ _ _ => true⟩ =
      ⟨.notActive, ⟨[], [⟨1, "pending", none, none⟩], [], [], [], []⟩, [], []⟩ :=
  ⟨by decide, by decide, by decide, by decide, by decide, Or.inl rfl,
    claim_C5_castVote_not_active _ _ 1 2 3 "0xabc" ⟨1, "pending", none, none⟩ (by decide)
      (by decide) (by decide) (by decide) (by decide) (Or.inl rfl)⟩

/-- `String.toLower` is the character-wise lower-casing of the underlying
character list (this form evaluates by kernel reduction). -/
theorem strToLower_eq (s : String) : s.toLower = ⟨s.data.map Char.toLower⟩ :=
  String.map_eq Char.toLower s

/-- Lower-casing a character twice is the same as doing it once. -/
theorem charToLower_idem (c : Char) : c.toLower.toLower = c.toLower := by
  simp only [Char.toLower]
  by_cases h : c.toNat ≥ 65 ∧ c.toNat ≤ 90
  · rw [if_pos h]
    have hv : Nat.isValidChar (c.toNat + 32) := Or.inl (by omega)
    have ht : (Char.ofNat (c.toNat + 32)).toNat = c.toNat + 32 := by
      rw [Char.ofNat, dif_pos hv]; rfl
    rw [ht, if_neg (by omega)]
  · rw [if_neg h, if_neg h]

/-- Lower-casing a string twice is the same as doing it once. -/
theorem strToLower_idem (s : String) : s.toLower.toLower = s.toLower := by
  rw [strToLower_eq s, strToLower_eq ⟨s.data.map Char.toLower⟩]
  simp only [List.map_map]
  exact congrArg String.mk (List.map_congr_left (fun c _ => charToLower_idem c))

/-- C1: two castVote calls with the same (electionId, postId, wallet) and
distinct candidate ids — once the first call has completed (its VoteLog
write included), the second call fails with the already-voted response, its
ledger submit trace is empty, and it leaves the database unchanged. -/
theorem claim_C1_second_vote_rejected (db : Db) (L : Ledger) (e p c₁ c₂ : Nat)
    (w tx : String) (el : Election) (po : Post) (ca₁ ca₂ : Candidate)
    (he : e ≠ 0) (hp : p ≠ 0) (hc₁ : c₁ ≠ 0) (hc₂ : c₂ ≠ 0) (hw : w ≠ "")
    (hwl : w.toLower = w)
    (hel : getElectionById db e = some el) (hact : el.status = "active")
    (hpo : getPostById db p = some po) (hpe : po.election_id = e)
    (hca₁ : getCandidateById db c₁ = some ca₁) (hcp₁ : ca₁.post_id = p)
    (hca₂ : getCandidateById db c₂ = some ca₂) (hcp₂ : ca₂.post_id = p)
    (hnv : hasVoterVotedForPostInDB db e p w = false)
    (hsub : L.submitVote e p (ca₁.blockchain_candidate_id.getD "") w = some tx) :
    (castVote (some e) (some p) (some c₁) (some w) db L).response =
      .success e p c₁ w tx ∧
    (castVote (some e) (some p) (some c₂) (some w)
        (castVote (some e) (some p) (some c₁) (some w) db L).db L).response =
      .alreadyVoted ∧
    (castVote (some e) (some p) (some c₂) (some w)
        (castVote (some e) (some p) (some c₁) (some w) db L).db L).ledgerSubmits = [] ∧
    (castVote (some e) (some p) (some c₂) (some w)
        (castVote (some e) (some p) (some c₁) (some w) db L).db L).db =
      (castVote (some e) (some p) (some c₁) (some w) db L).db := by
  have hdb1 : (castVote (some e) (some p) (some c₁) (some w) db L).db =
      { db with
        vote_logs := db.vote_logs ++ [⟨e, p, c₁, w.toLower, tx⟩],
        voter_receipts := db.voter_receipts ++ [⟨w.toLower, e, p, c₁, tx, none⟩] } := by
    simp [castVote, truthyNat, truthyStr, he, hp, hc₁, hw, hel, hact, hpo, hpe,
      hca₁, hcp₁, hnv, hsub, createVoteLog, createVoterReceipt]
  have hresp1 : (castVote (some e) (some p) (some c₁) (some w) db L).response =
      .success e p c₁ w tx := by
    simp [castVote, truthyNat, truthyStr, he, hp, hc₁, hw, hel, hact, hpo, hpe,
      hca₁, hcp₁, hnv, hsub]
  have hvoted : hasVoterVotedForPostInDB
      (castVote (some e) (some p) (some c₁) (some w) db L).db e p w = true := by
    rw [hdb1, hasVoterVotedForPostInDB_set_logs]
    simp [hwl]
  have h2 : castVote (some e) (some p) (some c₂) (some w)
      (castVote (some e) (some p) (some c₁) (some w) db L).db L =
      ⟨.alreadyVoted, (castVote (some e) (some p) (some c₁) (some w) db L).db, [], []⟩ := by
    rw [hdb1] at hvoted ⊢
    simp [castVote, truthyNat, truthyStr, he, hp, hc₂, hw,
      getElectionById_set_logs, getPostById_set_logs, getCandidateById_set_logs,
      hel, hact, hpo, hpe, hca₂, hcp₂, hvoted]
  exact ⟨hresp1, by rw [h2], by rw [h2], by rw [h2]⟩

/-- Witness for C1, on a one-election, one-post, two-candidate database:
the first vote for candidate 30 succeeds; the repeat vote for candidate 31
is rejected and the ledger is not called again. -/
theorem claim_C1_witness :
    ((1 : Nat) ≠ 0 ∧ (2 : Nat) ≠ 0 ∧ (30 : Nat) ≠ 0 ∧ (31 : Nat) ≠ 0 ∧
      ("0xdef" : String) ≠ "" ∧ ("0xdef" : String).toLower = "0xdef") ∧
    (castVote (some 1) (some 2) (some 31) (some "0xdef")
        (castVote (some 1) (some 2) (some 30) (some "0xdef")
          ⟨[], [⟨1, "active", none, none⟩], [⟨2, 1⟩],
            [⟨30, 2, 1, some "bc30"⟩, ⟨31, 2, 1, some "bc31"⟩], [], []⟩
          ⟨fun _ _ _ _ => some "0xtx", fun _ _ _ _ _ => true⟩).db
        ⟨fun _ _ _ _ => some "0xtx", fun _ _ _ _ _ => true⟩).response =
      .alreadyVoted := by
  refine ⟨⟨by decide, by decide, by decide, by decide, by decide,
    by rw [strToLower_eq]; decide⟩, ?_⟩
  exact (claim_C1_second_vote_rejected
    ⟨[], [⟨1, "active", none, none⟩], [⟨2, 1⟩],
      [⟨30, 2, 1, some "bc30"⟩, ⟨31, 2, 1, some "bc31"⟩], [], []⟩
    ⟨fun _ _ _ _ => some "0xtx", fun _ _ _ _ _ => true⟩
    1 2 30 31 "0xdef" "0xtx" ⟨1, "active", none, none⟩ ⟨2, 1⟩
    ⟨30, 2, 1, some "bc30"⟩ ⟨31, 2, 1, some "bc31"⟩
    (by decide) (by decide) (by decide) (by decide) (by decide)
    (by rw [strToLower_eq]; decide)
    (by decide) (by decide) (by decide) (by decide) (by decide) (by decide)
    (by decide) (by decide) (by decide) (by decide)).2.1

/-- C4: when the ledger submission yields a transaction hash but the
post-submission verification fails, castVote still appends the VoteLog and
VoterReceipt rows and returns the success response; the failure only shows
up in the CRITICAL log, and the response is identical to the one produced
when verification succeeds. -/
theorem claim_C4_verification_failure_not_surfaced (db : Db) (L : Ledger)
    (e p c : Nat) (w tx : String) (el : Election) (po : Post) (ca : Candidate)
    (he : e ≠ 0) (hp : p ≠ 0) (hc : c ≠ 0) (hw : w ≠ "")
    (hel : getElectionById db e = some el) (hact : el.status = "active")
    (hpo : getPostById db p = some po) (hpe : po.election_id = e)
    (hca : getCandidateById db c = some ca) (hcp : ca.post_id = p)
    (hnv : hasVoterVotedForPostInDB db e p w = false)
    (hsub : L.submitVote e p (ca.blockchain_candidate_id.getD "") w = some tx)
    (hver : L.verifyVote tx e p (ca.blockchain_candidate_id.getD "") w = false) :
    (castVote (some e) (some p) (some c) (some w) db L).response =
      .success e p c w tx ∧
    (castVote (some e) (some p) (some c) (some w) db L).db.vote_logs =
      db.vote_logs ++ [⟨e, p, c, w.toLower, tx⟩] ∧
    (castVote (some e) (some p) (some c) (some w) db L).db.voter_receipts =
      db.voter_receipts ++ [⟨w.toLower, e, p, c, tx, none⟩] ∧
    (castVote (some e) (some p) (some c) (some w) db L).criticalLogs =
      ["CRITICAL: Blockchain transaction for vote did not verify correctly."] ∧
    (castVote (some e) (some p) (some c) (some w) db L).response =
      (castVote (some e) (some p) (some c) (some w) db
        { L with verifyVote := fun _ _ _ _ _ => true }).response := by
  refine ⟨?_, ?_, ?_, ?_, ?_⟩ <;>
    simp [castVote, truthyNat, truthyStr, he, hp, hc, hw, hel, hact, hpo, hpe,
      hca, hcp, hnv, hsub, hver, createVoteLog, createVoterReceipt]

/-- Witness for C4: with a ledger whose verification always fails, the vote
still succeeds, both audit rows are appended, and the CRITICAL line is
logged. -/
theorem claim_C4_witness :
    ((1 : Nat) ≠ 0 ∧ (2 : Nat) ≠ 0 ∧ (30 : Nat) ≠ 0 ∧ ("0xdef" : String) ≠ "") ∧
    (castVote (some 1) (some 2) (some 30) (some "0xdef")
        ⟨[], [⟨1, "active", none, none⟩], [⟨2, 1⟩], [⟨30, 2, 1, some "bc30"⟩], [], []⟩
        ⟨fun _ _ _ _ => some "0xtx", fun _ _ _ _ _ => false⟩).response =
      .success 1 2 30 "0xdef" "0xtx" ∧
    (castVote (some 1) (some 2) (some 30) (some "0xdef")
        ⟨[], [⟨1, "active", none, none⟩], [⟨2, 1⟩], [⟨30, 2, 1, some "bc30"⟩], [], []⟩
        ⟨fun _ _ _ _ => some "0xtx", fun _ _ _ _ _ => false⟩).criticalLogs =
      ["CRITICAL: Blockchain transaction for vote did not verify correctly."] := by
  refine ⟨by decide, ?_, ?_⟩
  · exact (claim_C4_verification_failure_not_surfaced
      ⟨[], [⟨1, "active", none, none⟩], [⟨2, 1⟩], [⟨30, 2, 1, some "bc30"⟩], [], []⟩
      ⟨fun _ _ _ _ => some "0xtx", fun _ _ _ _ _ => false⟩
      1 2 30 "0xdef" "0xtx" ⟨1, "active", none, none⟩ ⟨2, 1⟩ ⟨30, 2, 1, some "bc30"⟩
      (by decide) (by decide) (by decide) (by decide) (by decide) (by decide)
      (by decide) (by decide) (by decide) (by decide) (by decide) (by decide)
      (by decide)).1
  · exact (claim_C4_verification_failure_not_surfaced
      ⟨[], [⟨1, "active", none, none⟩], [⟨2, 1⟩], [⟨30, 2, 1, some "bc30"⟩], [], []⟩
      ⟨fun _ _ _ _ => some "0xtx", fun _ _ _ _ _ => false⟩
      1 2 30 "0xdef" "0xtx" ⟨1, "active", none, none⟩ ⟨2, 1⟩ ⟨30, 2, 1, some "bc30"⟩
      (by decide) (by decide) (by decide) (by decide) (by decide) (by decide)
      (by decide) (by decide) (by decide) (by decide) (by decide) (by decide)
      (by decide)).2.2.2.1

/-- An email-preserving per-row update commutes with the lookup by email. -/
theorem getVoterByEmail_map (f : Voter → Voter) (hf : ∀ v, (f v).email = v.email)
    (voters : List Voter) (email : String) :
    getVoterByEmail (voters.map f) email = (getVoterByEmail voters email).map f := by
  induction voters with
  | nil => rfl
  | cons v rest ih =>
    simp only [getVoterByEmail, List.map_cons, List.find?_cons] at *
    rw [hf v]
    cases h : (v.email == email) <;> simp [h, ih]

/-- C3: a successful authentication clears the stored nonce, so replaying
the very same (message, signature, wallet, email) request immediately fails
with the invalid-challenge response and changes nothing further. -/
theorem claim_C3_replay_rejected (voters : List Voter)
    (recover : String → String → Option String)
    (message signature walletAddress email : String) (v : Voter) (n a : String)
    (hm : message ≠ "") (hs : signature ≠ "") (hwa : walletAddress ≠ "")
    (hem : email ≠ "")
    (hv : getVoterByEmail voters email = some v)
    (hn : v.auth_nonce = some n) (hne : n ≠ "")
    (hmsg : message = voterAuthMessageStem ++ n)
    (hrec : recover message signature = some a)
    (haddr : a.toLower = walletAddress.toLower) :
    (voterAuthenticate message signature walletAddress email recover voters).response =
      .success walletAddress.toLower ∧
    voterAuthenticate message signature walletAddress email recover
        (voterAuthenticate message signature walletAddress email recover voters).voters =
      ⟨.invalidChallenge,
        (voterAuthenticate message signature walletAddress email recover voters).voters⟩ := by
  have hmsgOk : (message == voterAuthMessageStem ++ n) = true := by
    rw [hmsg]; simp
  have h1 : voterAuthenticate message signature walletAddress email recover voters =
      ⟨.success walletAddress.toLower,
        if v.wallet_address = none ∨
           v.wallet_address.map String.toLower ≠ some walletAddress.toLower then
          updateVoterStatusAndWallet voters v.id walletAddress "wallet_linked" none
        else
          updateVoterAuthNonce voters v.id none⟩ := by
    simp [voterAuthenticate, hm, hs, hwa, hem, hv, hn, hne, hmsgOk, hrec, haddr]
  rw [h1]
  refine ⟨rfl, ?_⟩
  by_cases hb : (v.wallet_address = none ∨
      v.wallet_address.map String.toLower ≠ some walletAddress.toLower)
  · rw [if_pos hb]
    have hv2 : getVoterByEmail
        (updateVoterStatusAndWallet voters v.id walletAddress "wallet_linked" none) email =
        some { v with wallet_address := some walletAddress.toLower,
                      registration_status := "wallet_linked", auth_nonce := none } := by
      rw [updateVoterStatusAndWallet,
        getVoterByEmail_map _ (fun u => by split <;> rfl), hv]
      simp
    simp [voterAuthenticate, hm, hs, hwa, hem, hv2]
  · rw [if_neg hb]
    have hv2 : getVoterByEmail (updateVoterAuthNonce voters v.id none) email =
        some { v with auth_nonce := none } := by
      rw [updateVoterAuthNonce,
        getVoterByEmail_map _ (fun u => by split <;> rfl), hv]
      simp
    simp [voterAuthenticate, hm, hs, hwa, hem, hv2]

/-- Witness for C3: one voter, a stored nonce, a recovery oracle that
returns the claimed wallet — authentication succeeds once and the identical
replay is rejected. -/
theorem claim_C3_witness :
    (("Authenticate to VoteX: n1") ≠ "" ∧ ("sig" : String) ≠ "" ∧
      ("0xabc" : String) ≠ "" ∧ ("a@b.c" : String) ≠ "" ∧
      getVoterByEmail [⟨7, "a@b.c", "Ada", none, some "n1", false, "email_verified"⟩]
        "a@b.c" = some ⟨7, "a@b.c", "Ada", none, some "n1", false, "email_verified"⟩ ∧
      ("n1" : String) ≠ "" ∧
      ("Authenticate to VoteX: n1") = voterAuthMessageStem ++ "n1" ∧
      ("0xabc" : String).toLower = ("0xabc" : String).toLower) ∧
    (voterAuthenticate "Authenticate to VoteX: n1" "sig" "0xabc" "a@b.c"
        (fun _ _ => some "0xabc")
        (voterAuthenticate "Authenticate to VoteX: n1" "sig" "0xabc" "a@b.c"
          (fun _ _ => some "0xabc")
          [⟨7, "a@b.c", "Ada", none, some "n1", false, "email_verified"⟩]).voters).response =
      .invalidChallenge := by
  refine ⟨⟨by decide, by decide, by decide, by decide, by decide, by decide, by decide, rfl⟩, ?_⟩
  have h := (claim_C3_replay_rejected
    [⟨7, "a@b.c", "Ada", none, some "n1", false, "email_verified"⟩]
    (fun _ _ => some "0xabc") "Authenticate to VoteX: n1" "sig" "0xabc" "a@b.c"
    ⟨7, "a@b.c", "Ada", none, some "n1", false, "email_verified"⟩ "n1" "0xabc"
    (by decide) (by decide) (by decide) (by decide) (by decide) (by decide)
    (by decide) (by decide) (by decide) rfl).2
  rw [h]

/-- C7: any two token-verification failures — whatever their reasons —
produce identical middleware outcomes on any request, for both the admin
and the voter middleware; with a well-formed Bearer header that outcome is
the one uniform invalid-token response. -/
theorem claim_C7_uniform_unauthorized (authHeader : Option String) (r₁ r₂ : TokenCheck)
    (h₁ : verifyToken r₁ = none) (h₂ : verifyToken r₂ = none) :
    authenticateAdmin authHeader (fun _ => r₁) =
      authenticateAdmin authHeader (fun _ => r₂) ∧
    authenticateVoter authHeader (fun _ => r₁) =
      authenticateVoter authHeader (fun _ => r₂) ∧
    (∀ h : String, h.startsWith "Bearer " →
      authenticateAdmin (some h) (fun _ => r₁) = MwResult.invalidToken ∧
      authenticateVoter (some h) (fun _ => r₁) = MwResult.invalidToken) := by
  refine ⟨?_, ?_, ?_⟩
  · cases authHeader with
    | none => rfl
    | some h =>
      by_cases hb : h.startsWith "Bearer " <;>
        simp [authenticateAdmin, hb, h₁, h₂]
  · cases authHeader with
    | none => rfl
    | some h =>
      by_cases hb : h.startsWith "Bearer " <;>
        simp [authenticateVoter, hb, h₁, h₂]
  · intro h hb
    constructor <;> simp [authenticateAdmin, authenticateVoter, hb, h₁]

/-- Witness for C7: an expired token and a bad-signature token are handled
identically. -/
theorem claim_C7_witness :
    verifyToken .expired = none ∧ verifyToken .badSignature = none ∧
    authenticateAdmin (some "Bearer t") (fun _ => .expired) =
      authenticateAdmin (some "Bearer t") (fun _ => .badSignature) :=
  ⟨rfl, rfl,
    (claim_C7_uniform_unauthorized (some "Bearer t") .expired .badSignature rfl rfl).1⟩

/-- C8: every wallet address that `updateVoterStatusAndWallet`,
`createVoteLog` and `createVoterReceipt` store is the lower-casing of the
input, these operations preserve the stored-wallet-addresses-are-lower-case
invariant, and the wallet-address lookups lower-case their argument, so two
arguments equal up to case read the same rows. -/
theorem claim_C8_wallets_lower_cased (db : Db) (voterId : Nat) (wa st : String)
    (nn : Option String) (log : VoteLog) (rcpt : VoterReceipt) (a b : String)
    (hab : a.toLower = b.toLower) (hinv : WalletsLowerCased db) :
    (∀ v ∈ updateVoterStatusAndWallet db.voters voterId wa st nn,
      v.wallet_address = some wa.toLower ∨ v ∈ db.voters) ∧
    createVoteLog db.vote_logs log =
      db.vote_logs ++ [{ log with voter_wallet_address := log.voter_wallet_address.toLower }] ∧
    createVoterReceipt db.voter_receipts rcpt =
      db.voter_receipts ++
        [{ rcpt with voter_wallet_address := rcpt.voter_wallet_address.toLower }] ∧
    WalletsLowerCased { db with
      voters := updateVoterStatusAndWallet db.voters voterId wa st nn } ∧
    WalletsLowerCased { db with vote_logs := createVoteLog db.vote_logs log } ∧
    WalletsLowerCased { db with
      voter_receipts := createVoterReceipt db.voter_receipts rcpt } ∧
    getVoterByWalletAddress db.voters a = getVoterByWalletAddress db.voters b ∧
    getVoterReceiptsByWalletAddress db.voter_receipts a =
      getVoterReceiptsByWalletAddress db.voter_receipts b := by
  obtain ⟨hv, hl, hr⟩ := hinv
  refine ⟨?_, rfl, rfl, ⟨?_, hl, hr⟩, ⟨hv, ?_, hr⟩, ⟨hv, hl, ?_⟩, ?_, ?_⟩
  · intro v hvm
    rw [updateVoterStatusAndWallet, List.mem_map] at hvm
    obtain ⟨u, hu, rfl⟩ := hvm
    by_cases h : u.id == voterId
    · left; simp [h]
    · right; simpa [h] using hu
  · intro v hvm w hw
    rw [updateVoterStatusAndWallet] at hvm
    simp only [List.mem_map] at hvm
    obtain ⟨u, hu, rfl⟩ := hvm
    by_cases h : u.id == voterId
    · simp only [h, if_true] at hw
      simp only [Option.some.injEq] at hw
      rw [← hw, strToLower_idem]
    · simp only [h, if_false] at hw
      exact hv u hu w hw
  · intro l hlm
    rw [createVoteLog, List.mem_append] at hlm
    rcases hlm with hlm | hlm
    · exact hl l hlm
    · simp only [List.mem_singleton] at hlm
      rw [hlm]
      exact strToLower_idem _
  · intro rc hrm
    rw [createVoterReceipt, List.mem_append] at hrm
    rcases hrm with hrm | hrm
    · exact hr rc hrm
    · simp only [List.mem_singleton] at hrm
      rw [hrm]
      exact strToLower_idem _
  · rw [getVoterByWalletAddress, getVoterByWalletAddress, hab]
  · rw [getVoterReceiptsByWalletAddress, getVoterReceiptsByWalletAddress, hab]

/-- Witness for C8, on a one-row database and the two case-variants of one
address. -/
theorem claim_C8_witness :
    (("0xAbC" : String).toLower = ("0xabc" : String).toLower ∧
      WalletsLowerCased ⟨[⟨7, "a@b.c", "Ada", some "0xold", none, false, "wallet_linked"⟩],
        [], [], [], [], []⟩) ∧
    getVoterByWalletAddress
        [⟨7, "a@b.c", "Ada", some "0xold", none, false, "wallet_linked"⟩] "0xAbC" =
      getVoterByWalletAddress
        [⟨7, "a@b.c", "Ada", some "0xold", none, false, "wallet_linked"⟩] "0xabc" := by
  have hab : ("0xAbC" : String).toLower = ("0xabc" : String).toLower := by
    rw [strToLower_eq, strToLower_eq]; decide
  have hinv : WalletsLowerCased ⟨[⟨7, "a@b.c", "Ada", some "0xold", none, false,
      "wallet_linked"⟩], [], [], [], [], []⟩ := by
    refine ⟨?_, by simp, by simp⟩
    intro v hv w hw
    simp only [List.mem_singleton] at hv
    rw [hv] at hw
    simp only [Option.some.injEq] at hw
    rw [← hw, strToLower_eq]; decide
  refine ⟨⟨hab, hinv⟩, ?_⟩
  exact (claim_C8_wallets_lower_cased
    ⟨[⟨7, "a@b.c", "Ada", some "0xold", none, false, "wallet_linked"⟩], [], [], [], [], []⟩
    7 "0xNew" "wallet_linked" none ⟨1, 2, 3, "0xW", "0xtx"⟩ ⟨"0xW", 1, 2, 3, "0xtx", none⟩
    "0xAbC" "0xabc" hab hinv).2.2.2.2.2.2.1

/-- C9: the three ledger read helpers fail open — whenever the underlying
contract call throws, `hasVotedForPost` and `checkVoterHasVotedForElection`
answer "has not voted" and `isVoterGloballyWhitelisted` answers "not
whitelisted", and no error is propagated (the functions are total and
Bool-valued).  For the election-wide check this covers both a throwing
details read and a throw at the first per-post read that is reached. -/
theorem claim_C9_ledger_reads_fail_open (m : String) (perPost : Nat → LedgerRead Bool)
    (pre rest : List Nat) (p : Nat)
    (hpre : ∀ q ∈ pre, perPost q = .ok false) (hp : perPost p = .err m) :
    hasVotedForPost (.err m) = false ∧
    isVoterGloballyWhitelisted (.err m) = false ∧
    checkVoterHasVotedForElection (.err m) perPost = false ∧
    checkVoterHasVotedForElection (.ok (pre ++ p :: rest)) perPost = false := by
  refine ⟨rfl, rfl, rfl, ?_⟩
  simp only [checkVoterHasVotedForElection]
  induction pre with
  | nil => simp [checkVotedLoop, hp]
  | cons q pre' ih =>
    have hq := hpre q (List.mem_cons_self q pre')
    simp only [List.cons_append, checkVotedLoop, hq]
    exact ih (fun x hx => hpre x (List.mem_cons_of_mem q hx))

/-- Witness for C9: a throwing ledger behind every helper yields `false`
everywhere. -/
theorem claim_C9_witness :
    (∀ q ∈ ([] : List Nat), (fun _ => LedgerRead.err "boom") q = LedgerRead.ok false) ∧
    (fun _ => (LedgerRead.err "boom" : LedgerRead Bool)) 5 = .err "boom" ∧
    checkVoterHasVotedForElection (.ok ([] ++ 5 :: [4]))
      (fun _ => (LedgerRead.err "boom" : LedgerRead Bool)) = false :=
  ⟨fun q hq => absurd hq (List.not_mem_nil q), rfl,
    (claim_C9_ledger_reads_fail_open "boom" (fun _ => .err "boom") [] [4] 5
      (fun q hq => absurd hq (List.not_mem_nil q)) rfl).2.2.2⟩

end VoteX
